import Mathlib

/- Verification of the tmp117-rs async driver (src/register.rs,
src/asynchronous/tmp117_ll.rs, src/asynchronous/mod.rs).

The driver is embedded shallowly at two levels.

Byte level (tmp117_ll.rs): the i2c transport is an oracle script, a list of
responses that answers one i2c transaction each.  Each transaction issued by the
driver is recorded in a trace of BTx events, so byte-level protocol claims can
be stated about the trace.

Register level (asynchronous/mod.rs): the driver functions call the low level
driver one register operation at a time, so the bus is modelled as a script of
register-granularity responses, and the trace records register reads, register
writes and alert-pin waits.  Loops in the source (the eeprom busy wait and the
no-pin polling fallbacks) consume one script entry per iteration, so they are
structurally recursive on the script.

Machine integers are Nat with explicit reductions mod 2 ^ 16 where the source
uses u16.  Rust f32 values on the modelled paths are embedded as exact
rationals: the only float arithmetic performed by the driver is division or
multiplication by the constant CELCIUS_CONVERSION = 0.0078125 = 2 ^ (-7) and
conversion from i16, both exact in IEEE f32 on the sensor range, so the
rational model agrees with the f32 computation there.  The saturating Rust
float-to-u16 cast is modelled explicitly by f32_as_u16.

Types declared in the crate root (lib.rs is not part of the sources given:
Error, Alert, ContinousConfig, the mode marker types and CELCIUS_CONVERSION)
are reconstructed from their uses in src/asynchronous/mod.rs and from the
register documentation in src/register.rs. -/

namespace Tmp

/-- Modelled from the spec and from register.rs: the crate root constant
CELCIUS_CONVERSION.  One register LSB is 7.8125 milli-degrees Celsius
(register.rs documents the limit and temperature registers as 7.8125 m°C per
LSB; the spec gives 0.0078125 °C per LSB). -/
def CELCIUS_CONVERSION : ℚ := 0.0078125

/-- Modelled from the spec: the error enum of the crate root, reconstructed
from its uses Error::Bus, Error::DataNotReady, Error::AlertPin in
asynchronous/mod.rs and the error taxonomy of the spec (the transport error
payload of the Bus variant is erased; InvalidRegisterData is the decode
rejection error named by the spec). -/
inductive Error
  | Bus
  | InvalidRegisterData
  | DataNotReady
  | AlertPin
  deriving DecidableEq, Repr

/-- Modelled from the spec: the alert classification enum of the crate root,
reconstructed from its uses Alert::HighLow, Alert::High, Alert::Low,
Alert::None in check_alert. -/
inductive Alert
  | None
  | High
  | Low
  | HighLow
  deriving DecidableEq, Repr

/-- Modelled from the spec: the typestate marker types UnknownMode,
OneShotMode, ContinuousMode, ShutdownMode of the crate root, collapsed into a
runtime mode tag carried by the handle. -/
inductive Mode
  | UnknownMode
  | OneShotMode
  | ContinuousMode
  | ShutdownMode
  deriving DecidableEq, Repr

/-- register.rs: AlertPinSelect (1 bit). -/
inductive AlertPinSelect
  | Alert
  | DataReady
  deriving DecidableEq, Repr

/-- register.rs: Polarity (1 bit). -/
inductive Polarity
  | ActiveLow
  | ActiveHigh
  deriving DecidableEq, Repr

/-- register.rs: Average (2 bits). -/
inductive Average
  | NoAverage
  | Avg8
  | Avg32
  | Avg64
  deriving DecidableEq, Repr

/-- register.rs: Conversion (3 bits). -/
inductive Conversion
  | Ms15_5
  | Ms125
  | Ms250
  | Ms500
  | Ms1000
  | Ms4000
  | Ms8000
  | Ms16000
  deriving DecidableEq, Repr

/-- register.rs: ConversionMode (2 bits); the bit pattern 2 is undefined. -/
inductive ConversionMode
  | Continuous
  | Shutdown
  | OneShot
  deriving DecidableEq, Repr

/-- Discriminant of AlertPinSelect from register.rs. -/
def alertSelCode : AlertPinSelect → Nat
  | .Alert => 0
  | .DataReady => 1

/-- Discriminant of Polarity from register.rs. -/
def polarityCode : Polarity → Nat
  | .ActiveLow => 0
  | .ActiveHigh => 1

/-- Discriminant of Average from register.rs. -/
def avgCode : Average → Nat
  | .NoAverage => 0
  | .Avg8 => 1
  | .Avg32 => 2
  | .Avg64 => 3

/-- Discriminant of Conversion from register.rs. -/
def convCode : Conversion → Nat
  | .Ms15_5 => 0
  | .Ms125 => 1
  | .Ms250 => 2
  | .Ms500 => 3
  | .Ms1000 => 4
  | .Ms4000 => 5
  | .Ms8000 => 6
  | .Ms16000 => 7

/-- Discriminant of ConversionMode from register.rs: Continuous = 0,
Shutdown = 1, OneShot = 3; the pattern 2 corresponds to no constructor. -/
def convModeCode : ConversionMode → Nat
  | .Continuous => 0
  | .Shutdown => 1
  | .OneShot => 3

/- Bit layout of the Configuration register (register.rs, modular_bitfield:
the first declared field occupies the least significant bits):
bit 0 reserved, bit 1 reset, bit 2 dr_alert, bit 3 polarity, bit 4
trigger_mode, bits 5-6 average, bits 7-9 conversion, bits 10-11 mode, bit 12
eeprom_busy, bit 13 data_ready, bit 14 low_alert, bit 15 high_alert. -/

/-- Write the w-bit field at bit offset lo of a 16-bit word
(modular_bitfield setter). -/
def setField (raw lo w v : Nat) : Nat :=
  (raw &&& (65535 - ((2 ^ w - 1) <<< lo))) ||| ((v % 2 ^ w) <<< lo)

/-- Configuration getter eeprom_busy (bit 12). -/
def eeprom_busy (r : Nat) : Bool := r.testBit 12

/-- Configuration getter data_ready (bit 13). -/
def data_ready (r : Nat) : Bool := r.testBit 13

/-- Configuration getter low_alert (bit 14). -/
def low_alert (r : Nat) : Bool := r.testBit 14

/-- Configuration getter high_alert (bit 15). -/
def high_alert (r : Nat) : Bool := r.testBit 15

/-- The 2-bit mode field of a Configuration word (bits 10-11). -/
def modeField (r : Nat) : Nat := r / 1024 % 4

/-- Configuration setter for the mode field (with_mode and set_mode). -/
def set_mode (r : Nat) (m : ConversionMode) : Nat := setField r 10 2 (convModeCode m)

/-- Configuration setter for the average field (with_average and set_average). -/
def set_average (r : Nat) (a : Average) : Nat := setField r 5 2 (avgCode a)

/-- Configuration setter for the conversion-cycle field (set_conversion). -/
def set_conversion (r : Nat) (c : Conversion) : Nat := setField r 7 3 (convCode c)

/-- Configuration setter for the dr_alert pin-select bit (with_dr_alert). -/
def with_dr_alert (r : Nat) (s : AlertPinSelect) : Nat := setField r 2 1 (alertSelCode s)

/-- Configuration setter for the polarity bit (with_polarity). -/
def with_polarity (r : Nat) (p : Polarity) : Nat := setField r 3 1 (polarityCode p)

/-- Configuration setter for the reset bit (with_reset). -/
def with_reset (r : Nat) (b : Bool) : Nat := setField r 1 1 (if b then 1 else 0)

/-- Twos-complement reading of a 16-bit word as a signed integer. -/
def signed16 (v : Nat) : Int :=
  if v % 65536 < 32768 then (v % 65536 : Int) else (v % 65536 : Int) - 65536

/-- Temperature decoding used by read_temp and read_temp_raw:
(u16 as i16) as f32 * CELCIUS_CONVERSION. -/
def decodeTemp (v : Nat) : ℚ := (signed16 v : ℚ) * CELCIUS_CONVERSION

/-- Rust saturating cast from f32 to u16 (the expression as u16 truncates
toward zero and clamps to the range of u16, mapping every negative value
to 0). -/
def f32_as_u16 (x : ℚ) : Nat :=
  if x < 0 then 0 else if (65535 : ℚ) < x then 65535 else (Int.floor x).toNat

/-- Modelled from the spec: the ContinousConfig structure of the crate root,
reconstructed from its uses config.average, config.conversion, config.high,
config.low, config.offset in to_continuous; the three limit fields are
Celsius f32 values, embedded as rationals. -/
structure ContinousConfig where
  average : Option Average := none
  conversion : Option Conversion := none
  high : Option ℚ := none
  low : Option ℚ := none
  offset : Option ℚ := none

/-- asynchronous/mod.rs: the AlertPin role wrapper around the alert line
(the line object itself carries no modelled state). -/
inductive AlertPin
  | Unkown
  | DataReady
  | Alert
  deriving DecidableEq, Repr

/-- The Tmp117 driver handle: the optional alert line with its role tag, and
the typestate mode parameter represented as a runtime tag. -/
structure Tmp117 where
  alert : Option AlertPin
  mode : Mode
  deriving DecidableEq, Repr

/- Byte-level model of tmp117_ll.rs.  The i2c bus is a script of responses,
one per transaction; the transport error type E is erased to Unit. -/

/-- Response of the i2c transport to one transaction: for a read, the bytes
returned; err is a transport failure. -/
inductive BResp
  | ok (data : List Nat)
  | err
  deriving DecidableEq, Repr

/-- Script of i2c transport responses. -/
abbrev BScript := List BResp

/-- One i2c transaction issued by the low level driver. -/
inductive BTx
  | write (addr : Nat) (bytes : List Nat)
  | read (addr : Nat) (len : Nat)
  deriving DecidableEq, Repr

/-- Big-endian decoding of a two-byte buffer (u16::from_be_bytes). -/
def be16 (l : List Nat) : Nat := (l.headD 0 % 256) * 256 + ((l.drop 1).headD 0 % 256)

/-- One i2c write transaction (self.i2c.write): consumes one script entry;
an exhausted script behaves as a transport failure. -/
def i2c_write (dev : Nat) (bytes : List Nat) : BScript → Except Unit Unit × List BTx × BScript
  | [] => (.error (), [.write dev bytes], [])
  | .err :: rest => (.error (), [.write dev bytes], rest)
  | .ok _ :: rest => (.ok (), [.write dev bytes], rest)

/-- One i2c read transaction (self.i2c.read). -/
def i2c_read (dev len : Nat) : BScript → Except Unit (List Nat) × List BTx × BScript
  | [] => (.error (), [.read dev len], [])
  | .err :: rest => (.error (), [.read dev len], rest)
  | .ok d :: rest => (.ok d, [.read dev len], rest)

/-- tmp117_ll.rs write_internal: one write transaction carrying the register
address byte followed by the two big-endian value bytes (val.to_be_bytes). -/
def write_internal (dev reg v : Nat) (s : BScript) : Except Unit Unit × List BTx × BScript :=
  i2c_write dev [reg, v % 65536 / 256, v % 65536 % 256] s

/-- tmp117_ll.rs read (named ll_read here to keep it apart from the
register-level oracle below): an address-phase write of the one-byte register
address, then a two-byte read decoded big-endian.  The conversion of the raw
word to the register type R is the infallible From of the bitfield types in
register.rs, so decoding never fails. -/
def ll_read (dev reg : Nat) (s : BScript) : Except Unit Nat × List BTx × BScript :=
  match i2c_write dev [reg] s with
  | (.error e, t, s1) => (.error e, t, s1)
  | (.ok _, t, s1) =>
    match i2c_read dev 2 s1 with
    | (.error e, t2, s2) => (.error e, t ++ t2, s2)
    | (.ok d, t2, s2) => (.ok (be16 d), t ++ t2, s2)

/- Register-level model of asynchronous/mod.rs.  The calls into the low level
driver are modelled as one oracle step per register operation. -/

/-- Response of the bus to one register-level operation: for a read, the
16-bit word; err is a transport failure. -/
inductive RResp
  | ok (v : Nat)
  | err
  deriving DecidableEq, Repr

/-- Script of register-level bus responses. -/
abbrev RScript := List RResp

/-- Script of alert-line waits: one Bool per wait_for_high call, false being a
failure of the digital line. -/
abbrev PScript := List Bool

/-- One register-level event issued by the driver: a register read (with the
word obtained, none on transport failure), a register write (with the value
and its success) or an alert-pin wait. -/
inductive REv
  | read (addr : Nat) (val : Option Nat)
  | write (addr : Nat) (val : Nat) (ok : Bool)
  | pinWait (ok : Bool)
  deriving DecidableEq, Repr

/-- One register read through the low level driver, with the Error::Bus
mapping applied by every call site in asynchronous/mod.rs. -/
def busRead (a : Nat) : RScript → Except Error Nat × List REv × RScript
  | [] => (.error .Bus, [.read a none], [])
  | .err :: rest => (.error .Bus, [.read a none], rest)
  | .ok v :: rest => (.ok (v % 65536), [.read a (some (v % 65536))], rest)

/-- One register write through the low level driver, with the Error::Bus
mapping applied by every call site. -/
def busWrite (a v : Nat) : RScript → Except Error Unit × List REv × RScript
  | [] => (.error .Bus, [.write a v false], [])
  | .err :: rest => (.error .Bus, [.write a v false], rest)
  | .ok _ :: rest => (.ok (), [.write a v true], rest)

/-- tmp117_ll.rs edit: read the register, transform it, write it back. -/
def busEdit (a : Nat) (f : Nat → Nat) (bus : RScript) : Except Error Unit × List REv × RScript :=
  match busRead a bus with
  | (.error e, t, b) => (.error e, t, b)
  | (.ok v, t, b) =>
    let (r, t2, b2) := busWrite a (f v) b
    (r, t ++ t2, b2)

/-- Sequencing of two fallible driver steps, the question-mark operator of the
source: on failure of the first step its error and trace are returned and the
second step is never run. -/
def andThen (step : Except Error Unit × List REv × RScript)
    (k : RScript → Except Error Unit × List REv × RScript) :
    Except Error Unit × List REv × RScript :=
  match step with
  | (.error e, t, b) => (.error e, t, b)
  | (.ok _, t, b) =>
    let (r, t2, b2) := k b
    (r, t ++ t2, b2)

/-- asynchronous/mod.rs wait_eeprom: read Configuration, and while its
eeprom_busy flag is set read it again.  Each iteration consumes one script
entry, so the recursion is structural on the script. -/
def wait_eeprom : RScript → Except Error Unit × List REv × RScript
  | [] => (.error .Bus, [.read 1 none], [])
  | .err :: rest => (.error .Bus, [.read 1 none], rest)
  | .ok v :: rest =>
    if eeprom_busy (v % 65536) then
      let (r, t, b) := wait_eeprom rest
      (r, .read 1 (some (v % 65536)) :: t, b)
    else (.ok (), [.read 1 (some (v % 65536))], rest)

/-- asynchronous/mod.rs write_eeprom: for each scratch cell in the order
UEEPROM1 (0x05), UEEPROM2 (0x06), UEEPROM3 (0x07), wait for the eeprom to be
idle and then write the value. -/
def write_eeprom (values : Nat × Nat × Nat) (bus : RScript) :
    Except Error Unit × List REv × RScript :=
  andThen (wait_eeprom bus) fun b1 =>
  andThen (busWrite 5 values.1 b1) fun b2 =>
  andThen (wait_eeprom b2) fun b3 =>
  andThen (busWrite 6 values.2.1 b3) fun b4 =>
  andThen (wait_eeprom b4) fun b5 =>
  busWrite 7 values.2.2 b5

/-- asynchronous/mod.rs read_eeprom: three direct reads of the scratch cells. -/
def read_eeprom (bus : RScript) : Except Error (Nat × Nat × Nat) × List REv × RScript :=
  match busRead 5 bus with
  | (.error e, t, b) => (.error e, t, b)
  | (.ok u1, t, b) =>
    match busRead 6 b with
    | (.error e, t2, b2) => (.error e, t ++ t2, b2)
    | (.ok u2, t2, b2) =>
      match busRead 7 b2 with
      | (.error e, t3, b3) => (.error e, t ++ t2 ++ t3, b3)
      | (.ok u3, t3, b3) => (.ok (u1, u2, u3), t ++ t2 ++ t3, b3)

/-- asynchronous/mod.rs to_oneshot: edit Configuration with
with_mode(OneShot).with_average(average); on success the new handle is typed
OneShotMode, on failure only the error is returned (self was consumed). -/
def to_oneshot (h : Tmp117) (average : Average) (bus : RScript) :
    Except Error Tmp117 × List REv × RScript :=
  match busEdit 1 (fun r => set_average (set_mode r .OneShot) average) bus with
  | (.error e, t, b) => (.error e, t, b)
  | (.ok _, t, b) => (.ok { alert := h.alert, mode := .OneShotMode }, t, b)

/-- The optional limit writes of to_continuous: if the Celsius value is
present, write val / CELCIUS_CONVERSION cast to u16 to the register. -/
def writeOptLimit (a : Nat) (v : Option ℚ) (bus : RScript) :
    Except Error Unit × List REv × RScript :=
  match v with
  | none => (.ok (), [], bus)
  | some val => busWrite a (f32_as_u16 (val / CELCIUS_CONVERSION)) bus

/-- asynchronous/mod.rs to_continuous: edit Configuration (set the mode and
the optional average and conversion fields), then write the optional high
limit (0x02), low limit (0x03) and temperature offset (0x08). -/
def to_continuous (h : Tmp117) (config : ContinousConfig) (bus : RScript) :
    Except Error Tmp117 × List REv × RScript :=
  match busEdit 1 (fun r =>
      let r1 := set_mode r .Continuous
      let r2 := match config.average with
        | some a => set_average r1 a
        | none => r1
      match config.conversion with
        | some c => set_conversion r2 c
        | none => r2) bus with
  | (.error e, t, b) => (.error e, t, b)
  | (.ok _, t, b) =>
    match writeOptLimit 2 config.high b with
    | (.error e, t2, b2) => (.error e, t ++ t2, b2)
    | (.ok _, t2, b2) =>
      match writeOptLimit 3 config.low b2 with
      | (.error e, t3, b3) => (.error e, t ++ t2 ++ t3, b3)
      | (.ok _, t3, b3) =>
        match writeOptLimit 8 config.offset b3 with
        | (.error e, t4, b4) => (.error e, t ++ t2 ++ t3 ++ t4, b4)
        | (.ok _, t4, b4) =>
          (.ok { alert := h.alert, mode := .ContinuousMode }, t ++ t2 ++ t3 ++ t4, b4)

/-- asynchronous/mod.rs to_shutdown: edit Configuration with
with_mode(Shutdown). -/
def to_shutdown (h : Tmp117) (bus : RScript) : Except Error Tmp117 × List REv × RScript :=
  match busEdit 1 (fun r => set_mode r .Shutdown) bus with
  | (.error e, t, b) => (.error e, t, b)
  | (.ok _, t, b) => (.ok { alert := h.alert, mode := .ShutdownMode }, t, b)

/-- asynchronous/mod.rs reset: edit Configuration with with_reset(true); the
resulting handle is typed UnknownMode. -/
def reset (h : Tmp117) (bus : RScript) : Except Error Tmp117 × List REv × RScript :=
  match busEdit 1 (fun r => with_reset r true) bus with
  | (.error e, t, b) => (.error e, t, b)
  | (.ok _, t, b) => (.ok { alert := h.alert, mode := .UnknownMode }, t, b)

/-- asynchronous/mod.rs read_temp in the OneShotMode impl block: read
Configuration, fail with DataNotReady if data_ready is clear, otherwise read
Temperature (0x00), decode it and return it with a handle typed ShutdownMode. -/
def read_temp_oneshot (h : Tmp117) (bus : RScript) :
    Except Error (ℚ × Tmp117) × List REv × RScript :=
  match busRead 1 bus with
  | (.error e, t, b) => (.error e, t, b)
  | (.ok c, t, b) =>
    if data_ready c = false then (.error .DataNotReady, t, b)
    else
      match busRead 0 b with
      | (.error e, t2, b2) => (.error e, t ++ t2, b2)
      | (.ok v, t2, b2) =>
        (.ok (decodeTemp v, { alert := h.alert, mode := .ShutdownMode }), t ++ t2, b2)

/-- asynchronous/mod.rs read_temp_raw: read Temperature (0x00) and decode it,
with no data-ready check. -/
def read_temp_raw (bus : RScript) : Except Error ℚ × List REv × RScript :=
  match busRead 0 bus with
  | (.error e, t, b) => (.error e, t, b)
  | (.ok v, t, b) => (.ok (decodeTemp v), t, b)

/-- asynchronous/mod.rs read_temp in the ContinuousMode impl block: read
Configuration, fail with DataNotReady if data_ready is clear, otherwise
read_temp_raw. -/
def read_temp_continuous (bus : RScript) : Except Error ℚ × List REv × RScript :=
  match busRead 1 bus with
  | (.error e, t, b) => (.error e, t, b)
  | (.ok c, t, b) =>
    if data_ready c = false then (.error .DataNotReady, t, b)
    else
      let (r, t2, b2) := read_temp_raw b
      (r, t ++ t2, b2)

/-- The alert classification chain of check_alert. -/
def alertOf (c : Nat) : Alert :=
  if high_alert c && low_alert c then .HighLow
  else if high_alert c then .High
  else if low_alert c then .Low
  else .None

/-- asynchronous/mod.rs check_alert: read Configuration and classify the
high_alert and low_alert flags. -/
def check_alert (bus : RScript) : Except Error Alert × List REv × RScript :=
  match busRead 1 bus with
  | (.error e, t, b) => (.error e, t, b)
  | (.ok c, t, b) => (.ok (alertOf c), t, b)

/-- One wait_for_high call on the alert line, with the Error::AlertPin mapping
of the call sites; consumes one entry of the pin script. -/
def pinWait : PScript → Except Error Unit × REv × PScript
  | [] => (.error .AlertPin, .pinWait false, [])
  | b :: rest =>
    if b then (.ok (), .pinWait true, rest) else (.error .AlertPin, .pinWait false, rest)

/-- The polling fallback loop of wait_read_temp (no alert line): call
read_temp and retry while it returns DataNotReady.  The loop body is the
read_temp of the ContinuousMode impl block, inlined so that each iteration
recurses structurally on the script (a DataNotReady outcome always consumes
exactly the one Configuration read that produced it). -/
def pollRead : RScript → Except Error ℚ × List REv × RScript
  | [] => (.error .Bus, [.read 1 none], [])
  | .err :: rest => (.error .Bus, [.read 1 none], rest)
  | .ok v :: rest =>
    if data_ready (v % 65536) = false then
      let (r, t, b) := pollRead rest
      (r, .read 1 (some (v % 65536)) :: t, b)
    else
      let (r, t, b) := read_temp_raw rest
      (r, .read 1 (some (v % 65536)) :: t, b)

/-- The polling fallback loop of wait_alert (no alert line): call check_alert
and retry while it returns Ok(Alert::None), with check_alert inlined as in
pollRead. -/
def pollAlert : RScript → Except Error Alert × List REv × RScript
  | [] => (.error .Bus, [.read 1 none], [])
  | .err :: rest => (.error .Bus, [.read 1 none], rest)
  | .ok v :: rest =>
    if alertOf (v % 65536) = Alert.None then
      let (r, t, b) := pollAlert rest
      (r, .read 1 (some (v % 65536)) :: t, b)
    else (.ok (alertOf (v % 65536)), [.read 1 (some (v % 65536))], rest)

/-- The tail of wait_read_temp after the reconfiguration check succeeded with
trace t and remaining bus script b: wait for the alert line to go high, then
read the Temperature register directly through read_temp_raw.  The Rust
statement self.alert.as_ref().map(|v| Some(AlertPin::DataReady(v))) between
the wait and the read discards its result, so the handle is returned with its
stored role unchanged. -/
def awaitThenReadRaw (h : Tmp117) (t : List REv) (b : RScript) (pin : PScript) :
    Except Error ℚ × Tmp117 × List REv × RScript × PScript :=
  match pinWait pin with
  | (.error e, ev, pin2) => (.error e, h, t ++ [ev], b, pin2)
  | (.ok _, ev, pin2) =>
    let (r, t2, b2) := read_temp_raw b
    (r, h, t ++ [ev] ++ t2, b2, pin2)

/-- The tail of wait_alert after the reconfiguration check: wait for the
line, then check_alert; the role-update statement of the source discards its
result here too. -/
def awaitThenCheck (h : Tmp117) (t : List REv) (b : RScript) (pin : PScript) :
    Except Error Alert × Tmp117 × List REv × RScript × PScript :=
  match pinWait pin with
  | (.error e, ev, pin2) => (.error e, h, t ++ [ev], b, pin2)
  | (.ok _, ev, pin2) =>
    let (r, t2, b2) := check_alert b
    (r, h, t ++ [ev] ++ t2, b2, pin2)

/-- asynchronous/mod.rs wait_read_temp.  With an alert line: unless the role
is already AlertPin::DataReady, edit Configuration with
with_dr_alert(DataReady).with_polarity(ActiveHigh); then wait for the line
and read the temperature (awaitThenReadRaw).  Without a line: the polling
fallback. -/
def wait_read_temp (h : Tmp117) (bus : RScript) (pin : PScript) :
    Except Error ℚ × Tmp117 × List REv × RScript × PScript :=
  match h.alert with
  | some p =>
    let step1 : Except Error Unit × List REv × RScript :=
      match p with
      | .DataReady => (.ok (), [], bus)
      | _ => busEdit 1 (fun r => with_polarity (with_dr_alert r .DataReady) .ActiveHigh) bus
    match step1 with
    | (.error e, t, b) => (.error e, h, t, b, pin)
    | (.ok _, t, b) => awaitThenReadRaw h t b pin
  | none =>
    let (r, t, b) := pollRead bus
    (r, h, t, b, pin)

/-- asynchronous/mod.rs wait_alert, the mirror of wait_read_temp: unless the
role is already AlertPin::Alert, edit Configuration with
with_dr_alert(Alert).with_polarity(ActiveHigh); then wait for the line and
classify the alert flags (awaitThenCheck).  Without a line: the polling
fallback. -/
def wait_alert (h : Tmp117) (bus : RScript) (pin : PScript) :
    Except Error Alert × Tmp117 × List REv × RScript × PScript :=
  match h.alert with
  | some p =>
    let step1 : Except Error Unit × List REv × RScript :=
      match p with
      | .Alert => (.ok (), [], bus)
      | _ => busEdit 1 (fun r => with_polarity (with_dr_alert r .Alert) .ActiveHigh) bus
    match step1 with
    | (.error e, t, b) => (.error e, h, t, b, pin)
    | (.ok _, t, b) => awaitThenCheck h t b pin
  | none =>
    let (r, t, b) := pollAlert bus
    (r, h, t, b, pin)

/- Definitions used to state the claims. -/

/-- Modelled from the spec: the raw 16-bit twos-complement encoding of a
signed integer, the encoding the spec prescribes for the limit and offset
registers. -/
def spec_twos_complement16 (i : Int) : Nat := (i % 65536).toNat

/-- Addresses of all register writes issued in a trace, in order. -/
def writeAddrs (t : List REv) : List Nat :=
  t.filterMap fun e =>
    match e with
    | .write a _ _ => some a
    | _ => none

/-- Addresses of the successful register writes of a trace, in order. -/
def okWriteAddrs (t : List REv) : List Nat :=
  t.filterMap fun e =>
    match e with
    | .write a _ true => some a
    | _ => none

/-- Number of register writes to the Configuration register in a trace; each
Configuration edit issues exactly one such write. -/
def cfgWrites (t : List REv) : Nat :=
  (t.filter fun e =>
    match e with
    | .write 1 _ _ => true
    | _ => false).length

/-- Update of the known eeprom-busy status by one event: a successful read of
the Configuration register establishes the busy flag of the word read, any
other event leaves it as it was. -/
def busyUpd (lb : Option Bool) : REv → Option Bool
  | .read a (some c) => if a = 1 then some (eeprom_busy c) else lb
  | _ => lb

/-- The eeprom-busy status established by the successful Configuration reads
of a trace: some b when the most recent Configuration word read had busy
flag b, the start value when no Configuration word has been read. -/
def lastBusy (lb : Option Bool) : List REv → Option Bool
  | [] => lb
  | e :: t => lastBusy (busyUpd lb e) t

/-- Gate check of a single event: a write to one of the three eeprom scratch
registers (0x05, 0x06, 0x07) is admissible only while the most recently read
Configuration word had its eeprom-busy flag clear. -/
def evGateOk (lb : Option Bool) : REv → Bool
  | .write a _ _ => if a = 5 ∨ a = 6 ∨ a = 7 then lb == some false else true
  | _ => true

/-- Busy gating of a whole trace: every eeprom scratch write occurs while the
most recently read Configuration word had its eeprom-busy flag clear. -/
def busyGate (lb : Option Bool) : List REv → Bool
  | [] => true
  | e :: t => evGateOk lb e && busyGate (busyUpd lb e) t

/-- An event that reports a failure of its bus or line operation. -/
def evFailed : REv → Bool
  | .read _ none => true
  | .read _ (some _) => false
  | .write _ _ ok => !ok
  | .pinWait ok => !ok

/- Helper lemmas about the trace predicates. -/

theorem lastBusy_append (lb : Option Bool) (t1 t2 : List REv) :
    lastBusy lb (t1 ++ t2) = lastBusy (lastBusy lb t1) t2 := by
  induction t1 generalizing lb with
  | nil => rfl
  | cons e t ih => simp [lastBusy, ih]

theorem busyGate_append (lb : Option Bool) (t1 t2 : List REv) :
    busyGate lb (t1 ++ t2) = (busyGate lb t1 && busyGate (lastBusy lb t1) t2) := by
  induction t1 generalizing lb with
  | nil => simp [busyGate, lastBusy]
  | cons e t ih => simp [busyGate, lastBusy, ih, Bool.and_assoc]

theorem writeAddrs_append (t1 t2 : List REv) :
    writeAddrs (t1 ++ t2) = writeAddrs t1 ++ writeAddrs t2 :=
  List.filterMap_append t1 t2 _

theorem okWriteAddrs_append (t1 t2 : List REv) :
    okWriteAddrs (t1 ++ t2) = okWriteAddrs t1 ++ okWriteAddrs t2 :=
  List.filterMap_append t1 t2 _

/- Helper lemmas about wait_eeprom. -/

theorem wait_eeprom_reads (bus : RScript) :
    writeAddrs (wait_eeprom bus).2.1 = [] ∧ okWriteAddrs (wait_eeprom bus).2.1 = [] ∧
      ∀ lb, busyGate lb (wait_eeprom bus).2.1 = true := by
  induction bus with
  | nil => simp [wait_eeprom, writeAddrs, okWriteAddrs, busyGate, busyUpd, evGateOk]
  | cons r rest ih =>
    cases r with
    | err => simp [wait_eeprom, writeAddrs, okWriteAddrs, busyGate, busyUpd, evGateOk]
    | ok v =>
      by_cases hb : eeprom_busy (v % 65536)
      · rcases hw : wait_eeprom rest with ⟨r, t, b⟩
        rw [hw] at ih
        simp only [wait_eeprom, hb, if_true, hw]
        refine ⟨?_, ?_, ?_⟩
        · simpa [writeAddrs] using ih.1
        · simpa [okWriteAddrs] using ih.2.1
        · intro lb
          simpa [busyGate, busyUpd, evGateOk] using ih.2.2 _
      · simp [wait_eeprom, hb, writeAddrs, okWriteAddrs, busyGate, busyUpd, evGateOk]

theorem wait_eeprom_ok_lastBusy (bus : RScript) (h : (wait_eeprom bus).1 = .ok ()) :
    ∀ lb, lastBusy lb (wait_eeprom bus).2.1 = some false := by
  induction bus with
  | nil => simp [wait_eeprom] at h
  | cons r rest ih =>
    cases r with
    | err => simp [wait_eeprom] at h
    | ok v =>
      by_cases hb : eeprom_busy (v % 65536)
      · rcases hw : wait_eeprom rest with ⟨r, t, b⟩
        rw [hw] at ih
        simp only [wait_eeprom, hb, if_true, hw] at h ⊢
        intro lb
        simpa [lastBusy, busyUpd] using ih h _
      · intro lb
        simp only [wait_eeprom, hb, if_false]
        simp only [wait_eeprom, hb] at h
        simp [lastBusy, busyUpd, Bool.not_eq_true] at hb ⊢
        exact hb

theorem wait_eeprom_error (bus : RScript) (e : Error) (h : (wait_eeprom bus).1 = .error e) :
    e = .Bus ∧ (wait_eeprom bus).2.1.getLast? = some (.read 1 none) := by
  induction bus with
  | nil => simp_all [wait_eeprom]
  | cons r rest ih =>
    cases r with
    | err => simp_all [wait_eeprom]
    | ok v =>
      by_cases hb : eeprom_busy (v % 65536)
      · rcases hw : wait_eeprom rest with ⟨r, t, b⟩
        rw [hw] at ih
        simp only [wait_eeprom, hb, if_true, hw] at h ⊢
        obtain ⟨he, hl⟩ := ih h
        refine ⟨he, ?_⟩
        cases t with
        | nil => simp at hl
        | cons th tt => simpa [List.getLast?_cons_cons] using hl
      · simp only [wait_eeprom, hb, if_false] at h
        simp at h

/- Helper lemmas about busWrite. -/

theorem busWrite_trace (a v : Nat) (bus : RScript) :
    (∀ u, (busWrite a v bus).1 = .ok u → (busWrite a v bus).2.1 = [.write a v true]) ∧
    (∀ e, (busWrite a v bus).1 = .error e →
      e = .Bus ∧ (busWrite a v bus).2.1 = [.write a v false]) := by
  cases bus with
  | nil => simp [busWrite]
  | cons r rest => cases r <;> simp [busWrite]

/- Helper lemmas about andThen. -/

theorem andThen_ok (s : Except Error Unit × List REv × RScript)
    (k : RScript → Except Error Unit × List REv × RScript) (u : Unit)
    (h : (andThen s k).1 = .ok u) :
    s.1 = .ok () ∧ (k s.2.2).1 = .ok () ∧
      (andThen s k).2.1 = s.2.1 ++ (k s.2.2).2.1 := by
  rcases s with ⟨r, t, b⟩
  cases r with
  | error e => simp [andThen] at h
  | ok w =>
    rcases hk : k b with ⟨rk, tk, bk⟩
    simp only [andThen, hk] at h ⊢
    cases rk with
    | error e => simp at h
    | ok wk => simp

theorem andThen_error (s : Except Error Unit × List REv × RScript)
    (k : RScript → Except Error Unit × List REv × RScript) (e : Error)
    (h : (andThen s k).1 = .error e) :
    (s.1 = .error e ∧ (andThen s k).2.1 = s.2.1) ∨
      (s.1 = .ok () ∧ (k s.2.2).1 = .error e ∧
        (andThen s k).2.1 = s.2.1 ++ (k s.2.2).2.1) := by
  rcases s with ⟨r, t, b⟩
  cases r with
  | error e2 =>
    left
    simp only [andThen] at h ⊢
    obtain rfl : e2 = e := by simpa using h
    exact ⟨rfl, trivial⟩
  | ok w =>
    right
    rcases hk : k b with ⟨rk, tk, bk⟩
    simp only [andThen, hk] at h ⊢
    cases rk with
    | error e2 => simp_all
    | ok wk => simp at h

theorem andThen_gate (lb : Option Bool) (s : Except Error Unit × List REv × RScript)
    (k : RScript → Except Error Unit × List REv × RScript)
    (h1 : busyGate lb s.2.1 = true)
    (h2 : s.1 = .ok () → busyGate (lastBusy lb s.2.1) (k s.2.2).2.1 = true) :
    busyGate lb (andThen s k).2.1 = true := by
  rcases s with ⟨r, t, b⟩
  cases r with
  | error e => simpa [andThen] using h1
  | ok w =>
    rcases hk : k b with ⟨rk, tk, bk⟩
    simp only [andThen, hk]
    simp only at h1
    have h2' := h2 rfl
    simp only [hk] at h2'
    simp [busyGate_append, h1, h2']

theorem busWrite_gate (a v : Nat) (bus : RScript) :
    busyGate (some false) (busWrite a v bus).2.1 = true := by
  cases bus with
  | nil => simp [busWrite, busyGate, evGateOk, busyUpd]
  | cons r rest => cases r <;> simp [busWrite, busyGate, evGateOk, busyUpd]

theorem busWrite_lastBusy (a v : Nat) (bus : RScript) (lb : Option Bool) :
    lastBusy lb (busWrite a v bus).2.1 = lb := by
  cases bus with
  | nil => simp [busWrite, lastBusy, busyUpd]
  | cons r rest => cases r <;> simp [busWrite, lastBusy, busyUpd]

theorem busWrite_writeAddrs (a v : Nat) (bus : RScript) :
    writeAddrs (busWrite a v bus).2.1 = [a] := by
  cases bus with
  | nil => simp [busWrite, writeAddrs]
  | cons r rest => cases r <;> simp [busWrite, writeAddrs]

theorem busWrite_okWriteAddrs (a v : Nat) (bus : RScript) :
    (∀ u, (busWrite a v bus).1 = .ok u → okWriteAddrs (busWrite a v bus).2.1 = [a]) ∧
    (∀ e, (busWrite a v bus).1 = .error e → okWriteAddrs (busWrite a v bus).2.1 = []) := by
  cases bus with
  | nil => simp [busWrite, okWriteAddrs]
  | cons r rest => cases r <;> simp [busWrite, okWriteAddrs]

/-- C6: write_eeprom processes the three scratch registers strictly in the
order UEEPROM1 (0x05), UEEPROM2 (0x06), UEEPROM3 (0x07): on success the
register writes of the trace are exactly [5, 6, 7] in that order; before each
write it polls Configuration until the eeprom-busy flag reads clear (on a
script that reports busy k times and then clear, the poll issues exactly
k + 1 Configuration reads); and in every run, successful or not, no write to
a scratch register is ever issued while the most recently read busy flag was
set (busy gating of the whole trace). -/
theorem write_eeprom_busy_gated_ordered (v0 v1 v2 k : Nat) (bus rest : RScript) :
    busyGate none (write_eeprom (v0, v1, v2) bus).2.1 = true ∧
    ((write_eeprom (v0, v1, v2) bus).1 = .ok () →
      writeAddrs (write_eeprom (v0, v1, v2) bus).2.1 = [5, 6, 7]) ∧
    wait_eeprom (List.replicate k (RResp.ok 4096) ++ RResp.ok 0 :: rest) =
      (.ok (), List.replicate k (REv.read 1 (some 4096)) ++ [REv.read 1 (some 0)], rest) := by
  refine ⟨?_, ?_, ?_⟩
  · unfold write_eeprom
    apply andThen_gate
    · exact (wait_eeprom_reads bus).2.2 none
    · intro hok
      rw [wait_eeprom_ok_lastBusy bus hok none]
      apply andThen_gate
      · exact busWrite_gate 5 v0 _
      · intro hok2
        rw [busWrite_lastBusy]
        apply andThen_gate
        · exact (wait_eeprom_reads _).2.2 _
        · intro hok3
          rw [wait_eeprom_ok_lastBusy _ hok3]
          apply andThen_gate
          · exact busWrite_gate 6 v1 _
          · intro hok4
            rw [busWrite_lastBusy]
            apply andThen_gate
            · exact (wait_eeprom_reads _).2.2 _
            · intro hok5
              rw [wait_eeprom_ok_lastBusy _ hok5]
              exact busWrite_gate 7 v2 _
  · intro hok
    unfold write_eeprom at hok ⊢
    obtain ⟨h1, h2, e1⟩ := andThen_ok _ _ _ hok
    try simp only at h2 e1
    obtain ⟨h3, h4, e2⟩ := andThen_ok _ _ _ h2
    try simp only at h4 e2
    obtain ⟨h5, h6, e3⟩ := andThen_ok _ _ _ h4
    try simp only at h6 e3
    obtain ⟨h7, h8, e4⟩ := andThen_ok _ _ _ h6
    try simp only at h8 e4
    obtain ⟨h9, h10, e5⟩ := andThen_ok _ _ _ h8
    try simp only at h10 e5
    rw [e1, e2, e3, e4, e5]
    simp only [writeAddrs_append]
    rw [(wait_eeprom_reads _).1, (wait_eeprom_reads _).1, (wait_eeprom_reads _).1,
      (busWrite_trace _ _ _).1 _ h3, (busWrite_trace _ _ _).1 _ h7]
    rcases h10' : (busWrite 7 v2 _).1 with e | u
    · rw [h10'] at h10
      simp at h10
    · rw [(busWrite_trace _ _ _).1 _ h10']
      simp [writeAddrs]
  · induction k with
    | zero =>
      have h0 : eeprom_busy (0 % 65536) = false := by decide
      simp [wait_eeprom, h0]
    | succ n ih =>
      have h1 : eeprom_busy (4096 % 65536) = true := by decide
      have h2 : (4096 : Nat) % 65536 = 4096 := by norm_num
      simp only [List.replicate_succ, List.cons_append, wait_eeprom, h1, if_true, h2]
      rw [show (List.replicate n (RResp.ok 4096)).append (RResp.ok 0 :: rest) =
        List.replicate n (RResp.ok 4096) ++ RResp.ok 0 :: rest from rfl, ih]

theorem getLast_some_append (t1 t2 : List REv) (ev : REv) (h : t2.getLast? = some ev) :
    (t1 ++ t2).getLast? = some ev := by
  rw [List.getLast?_append_of_ne_nil]
  · exact h
  · intro hnil
    rw [hnil] at h
    simp at h

/-- C10: if during write_eeprom a busy-poll read or a cell write fails with a
bus error, the bus error itself is returned, the failing operation is the
last event of the trace (nothing further is issued after it), and the
successful scratch writes already issued form a strict prefix of [5, 6, 7]:
cells written before the failure stay written, and no cell after the failing
one is ever written. -/
theorem write_eeprom_error_prefix (v0 v1 v2 : Nat) (bus : RScript) (e : Error)
    (h : (write_eeprom (v0, v1, v2) bus).1 = .error e) :
    e = .Bus ∧
    (okWriteAddrs (write_eeprom (v0, v1, v2) bus).2.1 = [] ∨
     okWriteAddrs (write_eeprom (v0, v1, v2) bus).2.1 = [5] ∨
     okWriteAddrs (write_eeprom (v0, v1, v2) bus).2.1 = [5, 6]) ∧
    ∃ ev, (write_eeprom (v0, v1, v2) bus).2.1.getLast? = some ev ∧ evFailed ev = true := by
  unfold write_eeprom at h ⊢
  rcases andThen_error _ _ _ h with ⟨h1, e1⟩ | ⟨h1, h2, e1⟩
  · obtain ⟨he, hl⟩ := wait_eeprom_error _ _ h1
    rw [e1]
    exact ⟨he, Or.inl (wait_eeprom_reads bus).2.1, ⟨_, hl, rfl⟩⟩
  · try simp only at h2 e1
    rcases andThen_error _ _ _ h2 with ⟨h3, e2⟩ | ⟨h3, h4, e2⟩
    · obtain ⟨he, htr⟩ := (busWrite_trace _ _ _).2 _ h3
      rw [e1, e2, htr]
      refine ⟨he, Or.inl ?_, ⟨REv.write 5 v0 false, ?_, rfl⟩⟩
      · rw [okWriteAddrs_append, (wait_eeprom_reads _).2.1]
        simp [okWriteAddrs]
      · exact getLast_some_append _ _ _ (by simp)
    · try simp only at h4 e2
      have htr5 := (busWrite_trace _ _ _).1 _ h3
      have hok5 := (busWrite_okWriteAddrs _ _ _).1 _ h3
      rcases andThen_error _ _ _ h4 with ⟨h5, e3⟩ | ⟨h5, h6, e3⟩
      · obtain ⟨he, hl⟩ := wait_eeprom_error _ _ h5
        rw [e1, e2, e3]
        refine ⟨he, Or.inr (Or.inl ?_), ⟨REv.read 1 none, ?_, rfl⟩⟩
        · rw [okWriteAddrs_append, okWriteAddrs_append, (wait_eeprom_reads _).2.1,
            hok5, (wait_eeprom_reads _).2.1]
          simp
        · exact getLast_some_append _ _ _ (getLast_some_append _ _ _ hl)
      · try simp only at h6 e3
        have hokw2 := wait_eeprom_ok_lastBusy _ h5
        rcases andThen_error _ _ _ h6 with ⟨h7, e4⟩ | ⟨h7, h8, e4⟩
        · obtain ⟨he, htr⟩ := (busWrite_trace _ _ _).2 _ h7
          rw [e1, e2, e3, e4, htr]
          refine ⟨he, Or.inr (Or.inl ?_), ⟨REv.write 6 v1 false, ?_, rfl⟩⟩
          · rw [okWriteAddrs_append, okWriteAddrs_append, okWriteAddrs_append,
              (wait_eeprom_reads _).2.1, hok5, (wait_eeprom_reads _).2.1]
            simp [okWriteAddrs]
          · exact getLast_some_append _ _ _
              (getLast_some_append _ _ _ (getLast_some_append _ _ _ (by simp)))
        · try simp only at h8 e4
          have hok6 := (busWrite_okWriteAddrs _ _ _).1 _ h7
          rcases andThen_error _ _ _ h8 with ⟨h9, e5⟩ | ⟨h9, h10, e5⟩
          · obtain ⟨he, hl⟩ := wait_eeprom_error _ _ h9
            rw [e1, e2, e3, e4, e5]
            refine ⟨he, Or.inr (Or.inr ?_), ⟨REv.read 1 none, ?_, rfl⟩⟩
            · rw [okWriteAddrs_append, okWriteAddrs_append, okWriteAddrs_append,
                okWriteAddrs_append, (wait_eeprom_reads _).2.1, hok5,
                (wait_eeprom_reads _).2.1, hok6, (wait_eeprom_reads _).2.1]
              simp
            · exact getLast_some_append _ _ _ (getLast_some_append _ _ _
                (getLast_some_append _ _ _ (getLast_some_append _ _ _ hl)))
          · try simp only at h10 e5
            obtain ⟨he, htr⟩ := (busWrite_trace _ _ _).2 _ h10
            rw [e1, e2, e3, e4, e5, htr]
            refine ⟨he, Or.inr (Or.inr ?_), ⟨REv.write 7 v2 false, ?_, rfl⟩⟩
            · rw [okWriteAddrs_append, okWriteAddrs_append, okWriteAddrs_append,
                okWriteAddrs_append, okWriteAddrs_append, (wait_eeprom_reads _).2.1, hok5,
                (wait_eeprom_reads _).2.1, hok6, (wait_eeprom_reads _).2.1]
              simp [okWriteAddrs]
            · exact getLast_some_append _ _ _ (getLast_some_append _ _ _
                (getLast_some_append _ _ _ (getLast_some_append _ _ _
                  (getLast_some_append _ _ _ (by simp)))))

/-- Witness for C6: a concrete run whose script reports busy once before the
first cell and idle afterwards; all operations succeed, the trace is busy
gated and the cells are written in the order 5, 6, 7. -/
theorem write_eeprom_busy_gated_ordered_witness :
    busyGate none (write_eeprom (10, 20, 30)
      [RResp.ok 4096, RResp.ok 0, RResp.ok 0, RResp.ok 0,
        RResp.ok 0, RResp.ok 0, RResp.ok 0]).2.1 = true ∧
    writeAddrs (write_eeprom (10, 20, 30)
      [RResp.ok 4096, RResp.ok 0, RResp.ok 0, RResp.ok 0,
        RResp.ok 0, RResp.ok 0, RResp.ok 0]).2.1 = [5, 6, 7] ∧
    wait_eeprom (List.replicate 1 (RResp.ok 4096) ++ RResp.ok 0 :: []) =
      (.ok (), List.replicate 1 (REv.read 1 (some 4096)) ++ [REv.read 1 (some 0)], []) := by
  have h := write_eeprom_busy_gated_ordered 10 20 30 1
    [RResp.ok 4096, RResp.ok 0, RResp.ok 0, RResp.ok 0, RResp.ok 0, RResp.ok 0, RResp.ok 0] []
  exact ⟨h.1, h.2.1 rfl, h.2.2⟩

/-- Witness for C10: a concrete run whose busy poll before the second cell
fails; the bus error is returned, cell 1 stays written and nothing later is
issued. -/
theorem write_eeprom_error_prefix_witness :
    (write_eeprom (10, 20, 30) [RResp.ok 0, RResp.ok 0, RResp.err]).1 = .error Error.Bus ∧
    (okWriteAddrs (write_eeprom (10, 20, 30) [RResp.ok 0, RResp.ok 0, RResp.err]).2.1 = [] ∨
     okWriteAddrs (write_eeprom (10, 20, 30) [RResp.ok 0, RResp.ok 0, RResp.err]).2.1 = [5] ∨
     okWriteAddrs (write_eeprom (10, 20, 30) [RResp.ok 0, RResp.ok 0, RResp.err]).2.1 = [5, 6]) ∧
    ∃ ev, (write_eeprom (10, 20, 30) [RResp.ok 0, RResp.ok 0, RResp.err]).2.1.getLast? = some ev ∧
      evFailed ev = true := by
  have h : (write_eeprom (10, 20, 30) [RResp.ok 0, RResp.ok 0, RResp.err]).1 =
      .error Error.Bus := rfl
  have h2 := write_eeprom_error_prefix 10 20 30 [RResp.ok 0, RResp.ok 0, RResp.err] Error.Bus h
  exact ⟨h, h2.2.1, h2.2.2⟩

/-- C8: for every Configuration word read by check_alert, the classification
is exactly HighLow when both the high-alert and the low-alert flags are set,
High when only high-alert is set, Low when only low-alert is set, and None
when both are clear. -/
theorem check_alert_classification (v : Nat) (rest : RScript) (hv : v < 65536) :
    (high_alert v = true → low_alert v = true →
      check_alert (RResp.ok v :: rest) = (.ok Alert.HighLow, [REv.read 1 (some v)], rest)) ∧
    (high_alert v = true → low_alert v = false →
      check_alert (RResp.ok v :: rest) = (.ok Alert.High, [REv.read 1 (some v)], rest)) ∧
    (high_alert v = false → low_alert v = true →
      check_alert (RResp.ok v :: rest) = (.ok Alert.Low, [REv.read 1 (some v)], rest)) ∧
    (high_alert v = false → low_alert v = false →
      check_alert (RResp.ok v :: rest) = (.ok Alert.None, [REv.read 1 (some v)], rest)) := by
  have hm : v % 65536 = v := Nat.mod_eq_of_lt hv
  refine ⟨?_, ?_, ?_, ?_⟩ <;> intro h1 h2 <;>
    simp [check_alert, busRead, hm, alertOf, h1, h2]

/-- Witness for C8: the word 0xC000 has both alert flags set and is
classified HighLow. -/
theorem check_alert_classification_witness :
    high_alert 49152 = true ∧ low_alert 49152 = true ∧
      check_alert [RResp.ok 49152] = (.ok Alert.HighLow, [REv.read 1 (some 49152)], []) :=
  ⟨by decide, by decide,
    (check_alert_classification 49152 [] (by decide)).1 (by decide) (by decide)⟩

/-- C4: on a OneShot handle, read_temp first reads Configuration; when the
data-ready flag is clear it returns DataNotReady having issued no other bus
operation (in particular no Temperature read and no waiting); when the flag
is set it reads Temperature, decodes it as signed16 of the raw word times
0.0078125 degrees, and returns the value together with a handle typed
ShutdownMode. -/
theorem read_temp_oneshot_claim (h : Tmp117) (w : Nat) (rest : RScript) (hw : w < 65536) :
    (data_ready w = false →
      read_temp_oneshot h (RResp.ok w :: rest) =
        (.error .DataNotReady, [REv.read 1 (some w)], rest)) ∧
    (∀ tv rest2, data_ready w = true → tv < 65536 →
      read_temp_oneshot h (RResp.ok w :: RResp.ok tv :: rest2) =
        (.ok ((signed16 tv : ℚ) * CELCIUS_CONVERSION,
            { alert := h.alert, mode := .ShutdownMode }),
          [REv.read 1 (some w), REv.read 0 (some tv)], rest2)) := by
  have hm : w % 65536 = w := Nat.mod_eq_of_lt hw
  constructor
  · intro hdr
    simp [read_temp_oneshot, busRead, hm, hdr]
  · intro tv rest2 hdr htv
    have hmt : tv % 65536 = tv := Nat.mod_eq_of_lt htv
    simp [read_temp_oneshot, busRead, hm, hmt, hdr, decodeTemp]

/-- Witness for C4: with data-ready clear (word 0) the read fails with
DataNotReady after the single Configuration read; with data-ready set (word
0x2000) and raw temperature 0x8000 it returns the decoded value with a
ShutdownMode handle. -/
theorem read_temp_oneshot_claim_witness :
    data_ready 0 = false ∧ data_ready 8192 = true ∧
    read_temp_oneshot { alert := none, mode := .OneShotMode } [RResp.ok 0] =
      (.error .DataNotReady, [REv.read 1 (some 0)], []) ∧
    read_temp_oneshot { alert := none, mode := .OneShotMode }
        [RResp.ok 8192, RResp.ok 32768] =
      (.ok ((signed16 32768 : ℚ) * CELCIUS_CONVERSION,
          { alert := none, mode := .ShutdownMode }),
        [REv.read 1 (some 8192), REv.read 0 (some 32768)], []) :=
  ⟨by decide, by decide,
    (read_temp_oneshot_claim { alert := none, mode := .OneShotMode } 0 [] (by decide)).1
      (by decide),
    (read_temp_oneshot_claim { alert := none, mode := .OneShotMode } 8192 [] (by decide)).2
      32768 [] (by decide) (by decide)⟩

/-- C9: at the transport level, a register read is an address-phase write
carrying only the one-byte register address followed by a two-byte read whose
bytes are decoded big-endian, and a register write is one single write
transaction carrying the register address byte followed by the two value
bytes in big-endian order. -/
theorem bus_protocol_bigendian (dev reg v b0 b1 : Nat) (d0 : List Nat) (rest : BScript)
    (hv : v < 65536) (hb0 : b0 < 256) (hb1 : b1 < 256) :
    write_internal dev reg v (BResp.ok d0 :: rest) =
      (.ok (), [BTx.write dev [reg, v / 256, v % 256]], rest) ∧
    ll_read dev reg (BResp.ok d0 :: BResp.ok [b0, b1] :: rest) =
      (.ok (b0 * 256 + b1), [BTx.write dev [reg], BTx.read dev 2], rest) := by
  have hm : v % 65536 = v := Nat.mod_eq_of_lt hv
  constructor
  · simp [write_internal, i2c_write, hm]
  · simp [ll_read, i2c_write, i2c_read, be16, Nat.mod_eq_of_lt hb0, Nat.mod_eq_of_lt hb1]

/-- Witness for C9: writing 0xFB00 to HighLimit (0x02) issues the bytes
[0x02, 0xFB, 0x00], and reading back the bytes [0xFB, 0x00] decodes to
0xFB00. -/
theorem bus_protocol_bigendian_witness :
    write_internal 73 2 64256 [BResp.ok []] =
      (.ok (), [BTx.write 73 [2, 251, 0]], []) ∧
    ll_read 73 2 [BResp.ok [], BResp.ok [251, 0]] =
      (.ok 64256, [BTx.write 73 [2], BTx.read 73 2], []) := by
  have h := bus_protocol_bigendian 73 2 64256 251 0 [] [] (by decide) (by decide) (by decide)
  exact ⟨h.1, h.2⟩

/-- C5, counterexample: the low level register read never rejects a word.
The 16-bit word 0x0800 carries the undefined 2-bit conversion-mode pattern 2
(no ConversionMode constructor has discriminant 2), yet the read returns it
as a success, not as an InvalidRegisterData failure: decoding in the source
is the infallible From of the bitfield types, so the claimed decode rejection
does not exist. -/
theorem ll_read_accepts_undefined_mode_cex :
    ll_read 73 1 [BResp.ok [], BResp.ok [8, 0]] =
      (.ok 2048, [BTx.write 73 [1], BTx.read 73 2], []) ∧
    modeField 2048 = 2 ∧ (∀ m : ConversionMode, convModeCode m ≠ 2) := by
  refine ⟨rfl, rfl, ?_⟩
  intro m
  cases m <;> decide

/-- C5, amended: the read operation fails with a bus error exactly when a
transport transaction fails, and succeeds on every 16-bit word read back,
including words whose fields carry reserved or undefined bit combinations;
decode never rejects.  (The transport error type is erased to Unit here; the
driver layer maps it to Error::Bus.) -/
theorem ll_read_decode_total (dev reg : Nat) (d0 data : List Nat) (rest : BScript) :
    ll_read dev reg (BResp.ok d0 :: BResp.ok data :: rest) =
      (.ok (be16 data), [BTx.write dev [reg], BTx.read dev 2], rest) ∧
    ll_read dev reg (BResp.err :: rest) =
      (.error (), [BTx.write dev [reg]], rest) ∧
    ll_read dev reg (BResp.ok d0 :: BResp.err :: rest) =
      (.error (), [BTx.write dev [reg], BTx.read dev 2], rest) := by
  refine ⟨?_, ?_, ?_⟩ <;> simp [ll_read, i2c_write, i2c_read]

/-- Witness for C5: the amended statement evaluated on the concrete scripts
of the counterexample word 0x0800. -/
theorem ll_read_decode_total_witness :
    ll_read 73 1 [BResp.ok [], BResp.ok [8, 0]] =
      (.ok (be16 [8, 0]), [BTx.write 73 [1], BTx.read 73 2], []) ∧
    ll_read 73 1 [BResp.err] = (.error (), [BTx.write 73 [1]], []) ∧
    ll_read 73 1 [BResp.ok [], BResp.err] =
      (.error (), [BTx.write 73 [1], BTx.read 73 2], []) :=
  ll_read_decode_total 73 1 [] [8, 0] []

/-- C1, counterexample: the transitions consume the handle and their result
type carries a handle only in the success case, mirroring the Rust signature
Result of new-mode handle or Error where self is moved into the call.  On a
bus failure of the Configuration edit, to_oneshot returns only the error: the
result holds no handle at all (toOption is none), in particular no handle
whose typed mode equals the pre-transition mode UnknownMode, so the claimed
retry on the old handle is impossible. -/
theorem transition_failure_keeps_no_handle_cex :
    (to_oneshot { alert := some .Unkown, mode := .UnknownMode } .NoAverage [RResp.err]).1 =
      .error Error.Bus ∧
    ((to_oneshot { alert := some .Unkown, mode := .UnknownMode } .NoAverage
        [RResp.err]).1).toOption = none :=
  ⟨rfl, rfl⟩

/-- C1, amended: when the Configuration edit of a transition fails with a bus
error — at its read phase (the script answers the read with a failure) or at
its write-back phase (the read succeeds with some word c and the script
answers the write with a failure) — each of to_oneshot, to_continuous,
to_shutdown and reset returns Error::Bus.  On a read-phase failure the trace
holds the single failed read and no write; on a write-phase failure the only
write in the trace is the failed Configuration write of the edit itself and
no write succeeds (in particular to_continuous issues none of its limit
writes), so no register change took effect.  In both cases the consumed
handle is not returned with the error (toOption of the result is none), so no
handle of the pre-transition mode survives the failed call and the transition
cannot be retried on it. -/
theorem transitions_bus_failure_error_only (h : Tmp117) (avg : Average)
    (cfg : ContinousConfig) (rest : RScript) (c : Nat) :
    (to_oneshot h avg (RResp.err :: rest) = (.error .Bus, [REv.read 1 none], rest) ∧
      (to_oneshot h avg (RResp.ok c :: RResp.err :: rest)).1 = .error .Bus ∧
      (to_oneshot h avg (RResp.ok c :: RResp.err :: rest)).1.toOption = none ∧
      writeAddrs (to_oneshot h avg (RResp.ok c :: RResp.err :: rest)).2.1 = [1] ∧
      okWriteAddrs (to_oneshot h avg (RResp.ok c :: RResp.err :: rest)).2.1 = [] ∧
      (to_oneshot h avg (RResp.ok c :: RResp.err :: rest)).2.2 = rest) ∧
    (to_continuous h cfg (RResp.err :: rest) = (.error .Bus, [REv.read 1 none], rest) ∧
      (to_continuous h cfg (RResp.ok c :: RResp.err :: rest)).1 = .error .Bus ∧
      (to_continuous h cfg (RResp.ok c :: RResp.err :: rest)).1.toOption = none ∧
      writeAddrs (to_continuous h cfg (RResp.ok c :: RResp.err :: rest)).2.1 = [1] ∧
      okWriteAddrs (to_continuous h cfg (RResp.ok c :: RResp.err :: rest)).2.1 = [] ∧
      (to_continuous h cfg (RResp.ok c :: RResp.err :: rest)).2.2 = rest) ∧
    (to_shutdown h (RResp.err :: rest) = (.error .Bus, [REv.read 1 none], rest) ∧
      (to_shutdown h (RResp.ok c :: RResp.err :: rest)).1 = .error .Bus ∧
      (to_shutdown h (RResp.ok c :: RResp.err :: rest)).1.toOption = none ∧
      writeAddrs (to_shutdown h (RResp.ok c :: RResp.err :: rest)).2.1 = [1] ∧
      okWriteAddrs (to_shutdown h (RResp.ok c :: RResp.err :: rest)).2.1 = [] ∧
      (to_shutdown h (RResp.ok c :: RResp.err :: rest)).2.2 = rest) ∧
    (reset h (RResp.err :: rest) = (.error .Bus, [REv.read 1 none], rest) ∧
      (reset h (RResp.ok c :: RResp.err :: rest)).1 = .error .Bus ∧
      (reset h (RResp.ok c :: RResp.err :: rest)).1.toOption = none ∧
      writeAddrs (reset h (RResp.ok c :: RResp.err :: rest)).2.1 = [1] ∧
      okWriteAddrs (reset h (RResp.ok c :: RResp.err :: rest)).2.1 = [] ∧
      (reset h (RResp.ok c :: RResp.err :: rest)).2.2 = rest) := by
  refine ⟨⟨?_, ?_, ?_, ?_, ?_, ?_⟩, ⟨?_, ?_, ?_, ?_, ?_, ?_⟩,
    ⟨?_, ?_, ?_, ?_, ?_, ?_⟩, ⟨?_, ?_, ?_, ?_, ?_, ?_⟩⟩ <;>
    simp [to_oneshot, to_continuous, to_shutdown, reset, busEdit, busRead, busWrite,
      writeAddrs, okWriteAddrs, Except.toOption]

/-- Witness for the amended C1 at a concrete handle, word and script: both the
read-phase and the write-phase failure of the edit, for all four
transitions. -/
theorem transitions_bus_failure_error_only_witness :
    (to_oneshot { alert := none, mode := .ShutdownMode } .NoAverage [RResp.err] =
        (.error .Bus, [REv.read 1 none], []) ∧
      (to_oneshot { alert := none, mode := .ShutdownMode } .NoAverage
        [RResp.ok 0, RResp.err]).1 = .error .Bus ∧
      (to_oneshot { alert := none, mode := .ShutdownMode } .NoAverage
        [RResp.ok 0, RResp.err]).1.toOption = none ∧
      writeAddrs (to_oneshot { alert := none, mode := .ShutdownMode } .NoAverage
        [RResp.ok 0, RResp.err]).2.1 = [1] ∧
      okWriteAddrs (to_oneshot { alert := none, mode := .ShutdownMode } .NoAverage
        [RResp.ok 0, RResp.err]).2.1 = [] ∧
      (to_oneshot { alert := none, mode := .ShutdownMode } .NoAverage
        [RResp.ok 0, RResp.err]).2.2 = []) ∧
    (to_continuous { alert := none, mode := .ShutdownMode } {} [RResp.err] =
        (.error .Bus, [REv.read 1 none], []) ∧
      (to_continuous { alert := none, mode := .ShutdownMode } {}
        [RResp.ok 0, RResp.err]).1 = .error .Bus ∧
      (to_continuous { alert := none, mode := .ShutdownMode } {}
        [RResp.ok 0, RResp.err]).1.toOption = none ∧
      writeAddrs (to_continuous { alert := none, mode := .ShutdownMode } {}
        [RResp.ok 0, RResp.err]).2.1 = [1] ∧
      okWriteAddrs (to_continuous { alert := none, mode := .ShutdownMode } {}
        [RResp.ok 0, RResp.err]).2.1 = [] ∧
      (to_continuous { alert := none, mode := .ShutdownMode } {}
        [RResp.ok 0, RResp.err]).2.2 = []) ∧
    (to_shutdown { alert := none, mode := .ShutdownMode } [RResp.err] =
        (.error .Bus, [REv.read 1 none], []) ∧
      (to_shutdown { alert := none, mode := .ShutdownMode }
        [RResp.ok 0, RResp.err]).1 = .error .Bus ∧
      (to_shutdown { alert := none, mode := .ShutdownMode }
        [RResp.ok 0, RResp.err]).1.toOption = none ∧
      writeAddrs (to_shutdown { alert := none, mode := .ShutdownMode }
        [RResp.ok 0, RResp.err]).2.1 = [1] ∧
      okWriteAddrs (to_shutdown { alert := none, mode := .ShutdownMode }
        [RResp.ok 0, RResp.err]).2.1 = [] ∧
      (to_shutdown { alert := none, mode := .ShutdownMode }
        [RResp.ok 0, RResp.err]).2.2 = []) ∧
    (reset { alert := none, mode := .ShutdownMode } [RResp.err] =
        (.error .Bus, [REv.read 1 none], []) ∧
      (reset { alert := none, mode := .ShutdownMode }
        [RResp.ok 0, RResp.err]).1 = .error .Bus ∧
      (reset { alert := none, mode := .ShutdownMode }
        [RResp.ok 0, RResp.err]).1.toOption = none ∧
      writeAddrs (reset { alert := none, mode := .ShutdownMode }
        [RResp.ok 0, RResp.err]).2.1 = [1] ∧
      okWriteAddrs (reset { alert := none, mode := .ShutdownMode }
        [RResp.ok 0, RResp.err]).2.1 = [] ∧
      (reset { alert := none, mode := .ShutdownMode }
        [RResp.ok 0, RResp.err]).2.2 = []) :=
  transitions_bus_failure_error_only { alert := none, mode := .ShutdownMode } .NoAverage {} [] 0

/-- C2, failing input: to_continuous with a negative high limit of -10 °C.
The source computes (val / CELCIUS_CONVERSION) as u16; the Rust float-to-u16
cast saturates every negative value to 0, so the register write carries the
raw value 0, not the 16-bit twos-complement encoding 0xFB00 = 64256 of
-10 / 0.0078125 = -1280 required by the claim and by the register
documentation (the limit registers are documented as twos complement with
range plus or minus 256 °C).  For a nonnegative value such as 25.5 °C the
written value 3264 does match the claimed encoding. -/
theorem to_continuous_negative_limit_saturates :
    (to_continuous { alert := none, mode := .UnknownMode }
        { high := some (-10) } [RResp.ok 0, RResp.ok 0, RResp.ok 0]).2.1 =
      [REv.read 1 (some 0), REv.write 1 0 true, REv.write 2 0 true] ∧
    spec_twos_complement16 (-1280) = 64256 ∧
    ((-10 : ℚ) / CELCIUS_CONVERSION = -1280) ∧
    (to_continuous { alert := none, mode := .UnknownMode }
        { high := some 25.5 } [RResp.ok 0, RResp.ok 0, RResp.ok 0]).2.1 =
      [REv.read 1 (some 0), REv.write 1 0 true, REv.write 2 3264 true] ∧
    (25.5 : ℚ) / CELCIUS_CONVERSION = 3264 ∧
    spec_twos_complement16 (3264) = 3264 := by
  have hneg : f32_as_u16 ((-10 : ℚ) / CELCIUS_CONVERSION) = 0 := by
    norm_num [f32_as_u16, CELCIUS_CONVERSION]
  have hdiv : (25.5 : ℚ) / CELCIUS_CONVERSION = 3264 := by
    norm_num [CELCIUS_CONVERSION]
  have hpos : f32_as_u16 ((25.5 : ℚ) / CELCIUS_CONVERSION) = 3264 := by
    rw [hdiv]
    norm_num [f32_as_u16]
    decide
  refine ⟨?_, by decide, by norm_num [CELCIUS_CONVERSION], ?_, hdiv, by decide⟩
  · simp [to_continuous, busEdit, busRead, busWrite, writeOptLimit, hneg]
    decide
  · simp [to_continuous, busEdit, busRead, busWrite, writeOptLimit, hpos]
    decide

/-- C3, failing input: two consecutive wait_read_temp calls (and likewise two
consecutive wait_alert calls) on a Continuous handle that owns an alert line,
with every bus and pin operation succeeding.  The role-update statement
self.alert.as_ref().map(|v| Some(AlertPin::DataReady(v))) discards its
result, so after the first call the stored role is still AlertPin::Unkown and
the second call performs the pin-select/polarity Configuration edit again:
each of the two calls issues exactly one Configuration write, where the claim
requires the second call to issue none. -/
theorem wait_calls_reconfigure_every_time :
    (wait_read_temp { alert := some .Unkown, mode := .ContinuousMode }
        [RResp.ok 0, RResp.ok 0, RResp.ok 0] [true]).2.1 =
      { alert := some AlertPin.Unkown, mode := Mode.ContinuousMode } ∧
    cfgWrites (wait_read_temp { alert := some .Unkown, mode := .ContinuousMode }
        [RResp.ok 0, RResp.ok 0, RResp.ok 0] [true]).2.2.1 = 1 ∧
    cfgWrites (wait_read_temp
        (wait_read_temp { alert := some .Unkown, mode := .ContinuousMode }
          [RResp.ok 0, RResp.ok 0, RResp.ok 0] [true]).2.1
        [RResp.ok 0, RResp.ok 0, RResp.ok 0] [true]).2.2.1 = 1 ∧
    cfgWrites (wait_alert { alert := some .Unkown, mode := .ContinuousMode }
        [RResp.ok 0, RResp.ok 0, RResp.ok 0] [true]).2.2.1 = 1 ∧
    cfgWrites (wait_alert
        (wait_alert { alert := some .Unkown, mode := .ContinuousMode }
          [RResp.ok 0, RResp.ok 0, RResp.ok 0] [true]).2.1
        [RResp.ok 0, RResp.ok 0, RResp.ok 0] [true]).2.2.1 = 1 :=
  ⟨rfl, rfl, rfl, rfl, rfl⟩

/-- C7, counterexample: with an alert line configured, after the line goes
high wait_read_temp reads the Temperature register directly through
read_temp_raw; it does not perform the data-ready-checking read.  On a script
whose only Configuration word (the one read by the reconfiguration edit) has
the data-ready flag clear, the ordinary non-waiting read read_temp would
return DataNotReady, yet wait_read_temp succeeds and returns the decoded
temperature. -/
theorem wait_read_temp_skips_ready_check_cex :
    data_ready 0 = false ∧
    (read_temp_continuous [RResp.ok 0, RResp.ok 256]).1 = .error .DataNotReady ∧
    (wait_read_temp { alert := some .Unkown, mode := .ContinuousMode }
        [RResp.ok 0, RResp.ok 0, RResp.ok 256] [true]).1 = .ok (decodeTemp 256) ∧
    decodeTemp 256 = 2 := by
  refine ⟨by decide, rfl, rfl, ?_⟩
  norm_num [decodeTemp, signed16, CELCIUS_CONVERSION]

theorem busEdit_error (a : Nat) (f : Nat → Nat) (bus : RScript) (e : Error)
    (h : (busEdit a f bus).1 = .error e) : e = .Bus := by
  cases bus with
  | nil =>
    simp [busEdit, busRead] at h
    exact h.symm
  | cons r rest =>
    cases r with
    | err =>
      simp [busEdit, busRead] at h
      exact h.symm
    | ok v =>
      cases rest with
      | nil =>
        simp [busEdit, busRead, busWrite] at h
        exact h.symm
      | cons r2 rest2 =>
        cases r2 <;> simp [busEdit, busRead, busWrite] at h
        exact h.symm

theorem awaitThenReadRaw_spec (h : Tmp117) (t : List REv) (b : RScript) (pin : PScript) :
    (awaitThenReadRaw h t b pin).1 ≠ .error .DataNotReady ∧
    ∀ v, (awaitThenReadRaw h t b pin).1 = .ok v →
      ∃ tv, (awaitThenReadRaw h t b pin).2.2.1 =
          t ++ [REv.pinWait true, REv.read 0 (some tv)] ∧ v = decodeTemp tv := by
  cases pin with
  | nil => simp [awaitThenReadRaw, pinWait]
  | cons pb prest =>
    cases pb with
    | false => simp [awaitThenReadRaw, pinWait]
    | true =>
      cases b with
      | nil => simp [awaitThenReadRaw, pinWait, read_temp_raw, busRead]
      | cons r brest =>
        cases r with
        | err => simp [awaitThenReadRaw, pinWait, read_temp_raw, busRead]
        | ok tv =>
          constructor
          · simp [awaitThenReadRaw, pinWait, read_temp_raw, busRead]
          · intro v hv
            simp only [awaitThenReadRaw, pinWait, read_temp_raw, busRead, if_true] at hv ⊢
            refine ⟨tv % 65536, by simp, ?_⟩
            simpa using hv.symm

/-- C7, amended: with an alert line configured, wait_read_temp suspends until
the line goes high and then reads the Temperature register directly through
read_temp_raw, with no Configuration read and no data-ready check after the
wake: it can never return DataNotReady, and every successful call ends its
trace with the pin wait immediately followed by the single Temperature read
whose word it decodes. -/
theorem wait_read_temp_line_raw_read (h : Tmp117) (p : AlertPin) (bus : RScript)
    (pin : PScript) (hp : h.alert = some p) :
    (wait_read_temp h bus pin).1 ≠ .error .DataNotReady ∧
    ∀ v, (wait_read_temp h bus pin).1 = .ok v →
      ∃ t0 tv, (wait_read_temp h bus pin).2.2.1 =
          t0 ++ [REv.pinWait true, REv.read 0 (some tv)] ∧ v = decodeTemp tv := by
  simp only [wait_read_temp, hp]
  cases p with
  | DataReady =>
    refine ⟨(awaitThenReadRaw_spec h [] bus pin).1, ?_⟩
    intro v hv
    obtain ⟨tv, htr, hval⟩ := (awaitThenReadRaw_spec h [] bus pin).2 v hv
    exact ⟨[], tv, htr, hval⟩
  | Unkown =>
    rcases he : busEdit 1
        (fun r => with_polarity (with_dr_alert r .DataReady) .ActiveHigh) bus with ⟨re, te, be⟩
    cases re with
    | error e =>
      have he2 : e = .Bus := busEdit_error _ _ _ _ (by rw [he])
      subst he2
      simp [he]
    | ok u =>
      simp only [he]
      refine ⟨(awaitThenReadRaw_spec h te be pin).1, ?_⟩
      intro v hv
      obtain ⟨tv, htr, hval⟩ := (awaitThenReadRaw_spec h te be pin).2 v hv
      exact ⟨te, tv, htr, hval⟩
  | Alert =>
    rcases he : busEdit 1
        (fun r => with_polarity (with_dr_alert r .DataReady) .ActiveHigh) bus with ⟨re, te, be⟩
    cases re with
    | error e =>
      have he2 : e = .Bus := busEdit_error _ _ _ _ (by rw [he])
      subst he2
      simp [he]
    | ok u =>
      simp only [he]
      refine ⟨(awaitThenReadRaw_spec h te be pin).1, ?_⟩
      intro v hv
      obtain ⟨tv, htr, hval⟩ := (awaitThenReadRaw_spec h te be pin).2 v hv
      exact ⟨te, tv, htr, hval⟩

/-- Witness for the amended C7: a concrete line-equipped call that succeeds
and ends its trace with the pin wait followed by the Temperature read. -/
theorem wait_read_temp_line_raw_read_witness :
    ({ alert := some AlertPin.Unkown, mode := Mode.ContinuousMode } : Tmp117).alert =
      some AlertPin.Unkown ∧
    (wait_read_temp { alert := some .Unkown, mode := .ContinuousMode }
        [RResp.ok 0, RResp.ok 0, RResp.ok 256] [true]).1 ≠ .error .DataNotReady ∧
    ∃ t0 tv, (wait_read_temp { alert := some .Unkown, mode := .ContinuousMode }
        [RResp.ok 0, RResp.ok 0, RResp.ok 256] [true]).2.2.1 =
          t0 ++ [REv.pinWait true, REv.read 0 (some tv)] ∧
      (wait_read_temp { alert := some .Unkown, mode := .ContinuousMode }
        [RResp.ok 0, RResp.ok 0, RResp.ok 256] [true]).1 = .ok (decodeTemp tv) := by
  have hs := wait_read_temp_line_raw_read
    { alert := some .Unkown, mode := .ContinuousMode } AlertPin.Unkown
    [RResp.ok 0, RResp.ok 0, RResp.ok 256] [true] rfl
  refine ⟨rfl, hs.1, ?_⟩
  obtain ⟨t0, tv, htr, hval⟩ := hs.2 (decodeTemp 256) rfl
  exact ⟨t0, tv, htr, by rw [← hval]; rfl⟩

end Tmp
